import Mathlib

/-!
Shallow embedding of the SiteOrigin-Checker scoring engine
(src/backend/score_calculator.py) and URL safety gate (src/backend/app.py).

Python floats are modelled as rationals, Python dict values as a small
universe `PyVal` of the value shapes that actually occur (None, bool,
number, string, list of strings).  Fallible Python code is embedded in
`Except String`: an `Except.error` value models an uncaught Python
exception propagating out of the function; operations that can raise a
TypeError or AttributeError (ordering comparisons on non-numbers,
`.lower()` on non-strings, `len()` on objects without a length,
attribute access on None) return `Except.error`.
-/

namespace SiteOrigin

/-- Model of a Python value as stored in the probe-result dicts. -/
inductive PyVal where
  | vNone
  | vBool (b : Bool)
  | vNum (q : ℚ)
  | vStr (s : String)
  | vList (xs : List String)
deriving DecidableEq, Repr

/-- A Python dict with string keys, as an association list. -/
abbrev PyDict := List (String × PyVal)

/-- Python `d.get(key, default)`. -/
def dictGet (d : PyDict) (k : String) (dflt : PyVal) : PyVal :=
  match d.find? (fun kv => kv.1 == k) with
  | some kv => kv.2
  | none => dflt

/-- Numeric value of a Python object, when `isinstance(x, (int, float))`
holds; Python bools are numbers (False = 0, True = 1). -/
def pyNum : PyVal → Option ℚ
  | .vNum q => some q
  | .vBool b => some (if b then 1 else 0)
  | _ => none

/-- The check `isinstance(x, (int, float)) and not isinstance(x, bool)`
used by the legacy-signature sniffing in calculate_composite_score. -/
def isNumericNonBool : PyVal → Bool
  | .vNum _ => true
  | _ => false

/-- Python truthiness of a value. -/
def pyTruthy : PyVal → Bool
  | .vNone => false
  | .vBool b => b
  | .vNum q => q != 0
  | .vStr s => s != ""
  | .vList xs => !xs.isEmpty

/-- Whether a `PyVal` is Python `None`. -/
def PyVal.isNone : PyVal → Bool
  | .vNone => true
  | _ => false

/-- Truthiness of a dict-or-None argument (`if cipher_data:` style tests):
None and the empty dict are falsy. -/
def truthyOpt : Option PyDict → Bool
  | none => false
  | some d => !d.isEmpty

/-- Python ordering comparison `v < bound` against a numeric literal;
raises TypeError when `v` is not a number (None, str, list). -/
def pyLt (v : PyVal) (bound : ℚ) : Except String Bool :=
  match pyNum v with
  | some q => .ok (q < bound)
  | none => .error "TypeError: unorderable types in comparison"

/-- Python `s.lower()` on the ASCII strings the engine compares. -/
def strLower (s : String) : String := String.mk (s.data.map Char.toLower)

/-- Python `v.lower()`; raises AttributeError when `v` is not a string. -/
def pyLower (v : PyVal) : Except String String :=
  match v with
  | .vStr s => .ok (strLower s)
  | _ => .error "AttributeError: object has no attribute lower"

/-- Python `len(v)`; raises TypeError when `v` has no length. -/
def pyLen (v : PyVal) : Except String ℕ :=
  match v with
  | .vList xs => .ok xs.length
  | .vStr s => .ok s.length
  | _ => .error "TypeError: object has no len"

/-- Python equality of a value with a string literal (never raises). -/
def pyEqStr (v : PyVal) (s : String) : Bool :=
  match v with
  | .vStr t => t == s
  | _ => false

/-- Python `round(q, 1)`: round to one decimal digit, ties to even
(banker's rounding), on the rational model of floats. -/
def pyRound1 (q : ℚ) : ℚ :=
  let x := q * 10
  let f := ⌊x⌋
  let r := x - f
  if r < 1/2 then (f : ℚ) / 10
  else if 1/2 < r then ((f : ℚ) + 1) / 10
  else if f % 2 = 0 then (f : ℚ) / 10 else ((f : ℚ) + 1) / 10

/-- score_calculator.calculate_domain_age_score: step function of the
domain age; None or a negative age score 20; a non-numeric age raises
TypeError at the first ordering comparison. -/
def calculate_domain_age_score (age_years : PyVal) : Except String ℚ :=
  if age_years.isNone then .ok 20
  else match pyNum age_years with
  | none => .error "TypeError: unorderable types in domain age comparison"
  | some a =>
    if a < 0 then .ok 20
    else if 5 ≤ a then .ok 100
    else if 3 ≤ a then .ok 70
    else if 1 ≤ a then .ok 50
    else .ok 20

/-- score_calculator.calculate_ssl_score: 0 for falsy input or an invalid
certificate; otherwise 100, dropped to 70 on weak or medium cipher
strength, capped by min at 50 when expiring_soon, else at 70 when
days_until_expiry < 30. -/
def calculate_ssl_score (ssl_data : Option PyDict) : Except String ℚ :=
  if !truthyOpt ssl_data then .ok 0
  else
    let d := ssl_data.getD []
    let is_valid := dictGet d "is_valid" (dictGet d "valid" (.vBool false))
    if !pyTruthy is_valid then .ok 0
    else match pyLower (dictGet d "cipher_strength" (.vStr "")) with
    | .error e => .error e
    | .ok cipher_strength =>
      let score : ℚ :=
        if cipher_strength = "weak" then 70
        else if cipher_strength = "medium" then 70
        else 100
      let expiring_soon := pyTruthy (dictGet d "expiring_soon" (.vBool false))
      let due := dictGet d "days_until_expiry" .vNone
      if expiring_soon then .ok (min score 50)
      else if due.isNone then .ok score
      else match pyLt due 30 with
      | .error e => .error e
      | .ok lt30 => if lt30 then .ok (min score 70) else .ok score

/-- score_calculator.calculate_cipher_score: 50 for falsy input; else the
normalized cipher_score (default 0.5) scaled to 0..100, minus 10 points
per weak cipher capped at a 30 point penalty, clamped to the range 0..100.
A non-numeric cipher_score value raises (in Python the failure surfaces at
the arithmetic or the min comparison, an uncaught TypeError either way). -/
def calculate_cipher_score (cipher_data : Option PyDict) : Except String ℚ :=
  if !truthyOpt cipher_data then .ok 50
  else
    let d := cipher_data.getD []
    match pyNum (dictGet d "cipher_score" (.vNum (1/2))) with
    | none => .error "TypeError: cipher_score is not a number"
    | some cipher_score =>
      let score := cipher_score * 100
      match pyLen (dictGet d "weak_ciphers_found" (.vList [])) with
      | .error e => .error e
      | .ok n =>
        let score := if 0 < n then score - min 30 ((n : ℚ) * 10) else score
        .ok (max 0 (min 100 score))

/-- score_calculator.calculate_dns_score: 50 for falsy input; else the
normalized dns_score (default 0.5) scaled to 0..100 and clamped. -/
def calculate_dns_score (dns_data : Option PyDict) : Except String ℚ :=
  if !truthyOpt dns_data then .ok 50
  else
    let d := dns_data.getD []
    match pyNum (dictGet d "dns_score" (.vNum (1/2))) with
    | none => .error "TypeError: dns_score is not a number"
    | some dns_score =>
      let score := dns_score * 100
      .ok (max 0 (min 100 score))

/-- score_calculator.calculate_weighted_composite_score: weighted sum of
the four sub-scores, rounded to one decimal place. -/
def calculate_weighted_composite_score
    (domain_score ssl_score cipher_score dns_score : ℚ)
    (domain_weight ssl_weight cipher_weight dns_weight : ℚ) : ℚ :=
  pyRound1 (domain_score * domain_weight + ssl_score * ssl_weight +
    cipher_score * cipher_weight + dns_score * dns_weight)

/-- The ScoreCalculator instance state: the four weights set at
construction.  Construction never fails: a weight sum away from 1.0 only
logs a warning (see weights_warning). -/
structure ScoreCalculator where
  domain_weight : ℚ
  ssl_weight : ℚ
  cipher_weight : ℚ
  dns_weight : ℚ
deriving DecidableEq, Repr

/-- The warning condition in ScoreCalculator.__init__:
abs(total_weight - 1.0) > 0.01.  It never rejects the weights. -/
def weights_warning (self : ScoreCalculator) : Bool :=
  1/100 < |self.domain_weight + self.ssl_weight +
    self.cipher_weight + self.dns_weight - 1|

/-- ScoreCalculator._get_trust_level. -/
def get_trust_level (score : ℚ) : String :=
  if 80 ≤ score then "high"
  else if 60 ≤ score then "medium"
  else "low"

/-- ScoreCalculator._generate_recommendations.  Raises AttributeError if
ssl_data is None (unconditional `ssl_data.get` calls), and TypeError on
non-numeric values reaching the ordering comparisons. -/
def generate_recommendations (score : ℚ) (domain_age : PyVal)
    (ssl_data cipher_data dns_data : Option PyDict) :
    Except String (List String) :=
  let overall :=
    if 80 ≤ score then "This appears to be a trustworthy site"
    else if 60 ≤ score then "Exercise normal caution when interacting"
    else "Exercise caution when providing sensitive information"
  let domainCheck : Except String Bool :=
    if domain_age.isNone then .ok false else pyLt domain_age 1
  match domainCheck with
  | .error e => .error e
  | .ok domainNew =>
    match ssl_data with
    | none => .error "AttributeError: NoneType object has no attribute get"
    | some sd =>
      let sslInvalid :=
        !pyTruthy (dictGet sd "is_valid" .vNone) &&
        !pyTruthy (dictGet sd "valid" .vNone)
      let sslExpiring := pyTruthy (dictGet sd "expiring_soon" .vNone)
      let cipherRecs : List String :=
        if truthyOpt cipher_data then
          let cd := cipher_data.getD []
          if pyEqStr (dictGet cd "cipher_strength" .vNone) "weak" then
            ["Weak encryption detected - site may be vulnerable"]
          else if pyTruthy (dictGet cd "weak_ciphers_found" .vNone) then
            ["Site supports some weak cipher suites"]
          else []
        else []
      let dnsRecsE : Except String (List String) :=
        if truthyOpt dns_data then
          let dd := dns_data.getD []
          match pyLt (dictGet dd "dns_score" (.vNum 1)) (1/2) with
          | .error e => .error e
          | .ok lowDns =>
            .ok ((if lowDns then
                ["DNS configuration incomplete - verify site authenticity"]
              else []) ++
              (if !pyTruthy (dictGet dd "spf_record" .vNone) then
                ["No SPF record - email security may be compromised"]
              else []))
        else .ok []
      match dnsRecsE with
      | .error e => .error e
      | .ok dnsRecs =>
        .ok ([overall] ++
          (if domainNew then
            ["Domain is relatively new - verify legitimacy"] else []) ++
          (if sslInvalid then
            ["SSL certificate is invalid - avoid entering sensitive data"]
          else if sslExpiring then
            ["SSL certificate expiring soon"] else []) ++
          cipherRecs ++ dnsRecs)

/-- The structured dict returned by ScoreCalculator.calculate_score. -/
structure CompositeOut where
  composite_score : ℚ
  domain_score : ℚ
  ssl_score : ℚ
  cipher_score : ℚ
  dns_score : ℚ
  trust_level : String
  weights : ScoreCalculator
  recommendations : List String
deriving DecidableEq, Repr

/-- ScoreCalculator.calculate_score.  The method body has no exception
handler, so any exception raised by the helpers (modelled as
`Except.error`) propagates to the caller; passing None as domain_data
raises AttributeError at `domain_data.get`. -/
def ScoreCalculator.calculate_score (self : ScoreCalculator)
    (domain_data ssl_data cipher_data dns_data : Option PyDict) :
    Except String CompositeOut :=
  match domain_data with
  | none => .error "AttributeError: NoneType object has no attribute get"
  | some dd =>
    let domain_age_years := dictGet dd "domain_age_years" .vNone
    match calculate_domain_age_score domain_age_years with
    | .error e => .error e
    | .ok domain_score =>
      match calculate_ssl_score ssl_data with
      | .error e => .error e
      | .ok ssl_score =>
        match (if truthyOpt cipher_data
            then calculate_cipher_score cipher_data else .ok 50) with
        | .error e => .error e
        | .ok cipher_score =>
          match (if truthyOpt dns_data
              then calculate_dns_score dns_data else .ok 50) with
          | .error e => .error e
          | .ok dns_score =>
            let composite := calculate_weighted_composite_score
              domain_score ssl_score cipher_score dns_score
              self.domain_weight self.ssl_weight
              self.cipher_weight self.dns_weight
            let trust_level := get_trust_level composite
            match generate_recommendations composite domain_age_years
                ssl_data cipher_data dns_data with
            | .error e => .error e
            | .ok recommendations =>
              .ok { composite_score := pyRound1 composite,
                    domain_score := pyRound1 domain_score,
                    ssl_score := pyRound1 ssl_score,
                    cipher_score := pyRound1 cipher_score,
                    dns_score := pyRound1 dns_score,
                    trust_level := trust_level,
                    weights := self,
                    recommendations := recommendations }

/-- The parsed form of a URL, as returned by urllib.parse.urlparse
(Python standard library, treated as a collaborator): the lower-cased
scheme and the optional hostname.  `none` at the call site of the gate
models urlparse itself raising. -/
structure ParsedUrl where
  scheme : String
  hostname : Option String
deriving DecidableEq, Repr

/-- The classification flags of ipaddress.ip_address(s) (Python standard
library, treated as a collaborator). -/
structure IPFlags where
  is_private : Bool
  is_loopback : Bool
  is_link_local : Bool
  is_reserved : Bool
  is_multicast : Bool
  is_unspecified : Bool
deriving DecidableEq, Repr

/-- app.is_ip_private, parameterized by the ipaddress classifier
(`classify a = none` models ip_address raising on a malformed address,
which the code conservatively treats as private). -/
def is_ip_private (classify : String → Option IPFlags) (ip_str : String) :
    Bool :=
  match classify ip_str with
  | some ip =>
    ip.is_private || ip.is_loopback || ip.is_link_local ||
    ip.is_reserved || ip.is_multicast || ip.is_unspecified
  | none => true

/-- Hostname normalization used by the allowlist check:
host.lower().rstrip(".").  Only applied to hostnames, which urlparse
already lower-cases in practice; strLower models str.lower. -/
def normalizeHost (h : String) : String :=
  (strLower h).dropRightWhile (fun c => c == '.')

/-- app.is_url_allowed, parameterized by the ipaddress classifier, the
DNS resolver (`resolve h` is the address list of socket.getaddrinfo,
empty on failure, mirroring app.resolve_hostname) and the module-level
DOMAIN_ALLOWLIST (empty in the source).  Returns the
(allowed, reason) pair. -/
def is_url_allowed (classify : String → Option IPFlags)
    (resolve : String → List String) (allowlist : List String)
    (parsed : Option ParsedUrl) : Bool × String :=
  match parsed with
  | none => (false, "invalid_url")
  | some p =>
    if !(p.scheme == "http" || p.scheme == "https") then
      (false, "bad_scheme:" ++ p.scheme)
    else match p.hostname with
    | none => (false, "no_host")
    | some host =>
      if host == "" then (false, "no_host")
      else if !allowlist.isEmpty &&
          !((allowlist.map normalizeHost).contains (normalizeHost host)) then
        (false, "not_in_allowlist")
      else
        let addrs := resolve host
        if addrs.isEmpty then (false, "dns_resolution_failed")
        else match addrs.find? (fun a => is_ip_private classify a) with
        | some a => (false, "resolved_to_private_ip:" ++ a)
        | none => (true, "ok")

/-- The structured dict built by calculate_composite_score (the details
sub-dict echoes the raw inputs). -/
structure CCSOut where
  composite_score : ℚ
  domain_score : ℚ
  ssl_score : ℚ
  cipher_score : ℚ
  dns_score : ℚ
  trust_level : String
  details_domain_age_years : PyVal
  details_ssl_valid : PyVal
  details_ssl_days_remaining : PyVal
  details_cipher_score_normalized : ℚ
  details_dns_score_normalized : ℚ
deriving DecidableEq, Repr

/-- Result of the try-block of calculate_composite_score: a bare number
(legacy callers) or the structured dict. -/
inductive CCSVal where
  | numeric (q : ℚ)
  | structured (o : CCSOut)
deriving DecidableEq, Repr

/-- Overall result of calculate_composite_score: the errorDict case is
the dict built by the except-branch. -/
inductive CCSResult where
  | numeric (q : ℚ)
  | structured (o : CCSOut)
  | errorDict (composite_score : ℚ) (trust_level : String) (details : String)
deriving DecidableEq, Repr

/-- The weight-override test of the legacy branch of
calculate_composite_score: a 3rd or 4th positional argument replaces the
default weight exactly when isinstance(x, (int, float)) holds (bools are
ints in Python) and 0 < x <= 1; the numeric value is returned then. -/
def weightVal (v : PyVal) : Option ℚ :=
  match pyNum v with
  | some q => if 0 < q ∧ q ≤ 1 then some q else none
  | none => none

/-- The try-block of calculate_composite_score.  An `Except.error` is an
exception raised inside the block, to be caught by the handler in
calculate_composite_score. -/
def ccsBody (domain_age_years ssl_valid ssl_days_remaining ssl_issuer :
    PyVal) (cipher_score dns_score : ℚ) : Except String CCSVal :=
  if isNumericNonBool domain_age_years && isNumericNonBool ssl_valid then
    let domain_score_val := (pyNum domain_age_years).getD 0
    let ssl_score_val := (pyNum ssl_valid).getD 0
    let domain_weight := (weightVal ssl_days_remaining).getD (3/5)
    let ssl_weight := (weightVal ssl_issuer).getD (2/5)
    .ok (.numeric (domain_score_val * domain_weight +
      ssl_score_val * ssl_weight))
  else
    match calculate_domain_age_score domain_age_years with
    | .error e => .error e
    | .ok domain_score =>
      match (if ssl_days_remaining.isNone then .ok false
          else pyLt ssl_days_remaining 30) with
      | .error e => .error e
      | .ok expiring_soon =>
        let ssl_data : PyDict :=
          [("valid", ssl_valid), ("is_valid", ssl_valid),
           ("days_until_expiry", ssl_days_remaining),
           ("expiring_soon", .vBool expiring_soon),
           ("issuer", ssl_issuer)]
        match calculate_ssl_score (some ssl_data) with
        | .error e => .error e
        | .ok ssl_score_val =>
          let cipher_score_val := cipher_score * 100
          let dns_score_val := dns_score * 100
          let composite := calculate_weighted_composite_score
            domain_score ssl_score_val cipher_score_val dns_score_val
            (7/20) (1/4) (1/5) (1/5)
          let trust_level :=
            if 80 ≤ composite then "high"
            else if 60 ≤ composite then "medium"
            else "low"
          if isNumericNonBool ssl_valid then .ok (.numeric composite)
          else .ok (.structured
            { composite_score := composite,
              domain_score := domain_score,
              ssl_score := ssl_score_val,
              cipher_score := cipher_score_val,
              dns_score := dns_score_val,
              trust_level := trust_level,
              details_domain_age_years := domain_age_years,
              details_ssl_valid := ssl_valid,
              details_ssl_days_remaining := ssl_days_remaining,
              details_cipher_score_normalized := cipher_score,
              details_dns_score_normalized := dns_score })

/-- score_calculator.calculate_composite_score: the try-block wrapped in
the except-handler that converts any exception into the dict with
composite_score 0, trust_level error and the diagnostic string. -/
def calculate_composite_score (domain_age_years ssl_valid
    ssl_days_remaining ssl_issuer : PyVal)
    (cipher_score dns_score : ℚ) : CCSResult :=
  match ccsBody domain_age_years ssl_valid ssl_days_remaining ssl_issuer
      cipher_score dns_score with
  | .ok (.numeric q) => .numeric q
  | .ok (.structured o) => .structured o
  | .error e => .errorDict 0 "error" e

/-- Projection of the composite score out of a calculate_score result
(-1 on a propagated exception, a value outside the score range). -/
def compositeOf : Except String CompositeOut → ℚ
  | .ok r => r.composite_score
  | .error _ => -1

/-- Spec-side description of the domain-age step function, written from
the specification text: null or negative age 20, under one year 20, one
to three years 50, three to five years 70, five years and up 100. -/
def specDomainAgeScore (age : Option ℚ) : ℚ :=
  match age with
  | none => 20
  | some a =>
    if a < 0 then 20
    else if a < 1 then 20
    else if a < 3 then 50
    else if a < 5 then 70
    else 100

/-- Spec-side description of the certificate score, written from the
specification text: invalid gives 0; valid starts at 100, drops to 70 on
weak or medium cipher strength, is capped by min at 50 when flagged
expiring_soon, else capped at 70 when days_until_expiry is under 30. -/
def specSSLScore (valid : Bool) (cipher_strength : String)
    (expiring : Bool) (due : Option ℚ) : ℚ :=
  if valid = false then 0
  else
    let base : ℚ :=
      if strLower cipher_strength = "weak" ∨
          strLower cipher_strength = "medium" then 70 else 100
    if expiring then min base 50
    else match due with
    | some n => if n < 30 then min base 70 else base
    | none => base

/-- Spec-side description of the cipher score, written from the
specification text: normalized score scaled to 0..100, minus 10 points
per weak cipher capped at 30, clamped to the range 0..100. -/
def specCipherScore (s : ℚ) (n : ℕ) : ℚ :=
  max 0 (min 100 (100 * s - min 30 (10 * (n : ℚ))))

/-- A well-typed certificate dict, for stating the certificate-score
claims over the documented field shapes. -/
def mkSSLData (valid : Bool) (cipher_strength : String)
    (expiring : Bool) (due : Option ℚ) : PyDict :=
  [("is_valid", .vBool valid),
   ("cipher_strength", .vStr cipher_strength),
   ("expiring_soon", .vBool expiring),
   ("days_until_expiry", match due with | some n => .vNum n | none => .vNone)]

/-- Numeric rank of a trust level, for stating monotonicity. -/
def trustRank (t : String) : ℕ :=
  if t = "high" then 2 else if t = "medium" then 1 else 0

theorem pyRound1_int_div10 (k : ℤ) : pyRound1 ((k : ℚ)/10) = (k : ℚ)/10 := by
  have hx : ((k : ℚ)/10) * 10 = (k : ℚ) :=
    div_mul_cancel₀ (k : ℚ) (by norm_num)
  simp [pyRound1, hx, Int.floor_intCast]

theorem pyRound1_exists_int (q : ℚ) : ∃ k : ℤ, pyRound1 q = (k : ℚ)/10 := by
  simp only [pyRound1]
  split_ifs
  · exact ⟨⌊q * 10⌋, rfl⟩
  · exact ⟨⌊q * 10⌋ + 1, by push_cast; ring⟩
  · exact ⟨⌊q * 10⌋, rfl⟩
  · exact ⟨⌊q * 10⌋ + 1, by push_cast; ring⟩

theorem pyRound1_idem (q : ℚ) : pyRound1 (pyRound1 q) = pyRound1 q := by
  obtain ⟨k, hk⟩ := pyRound1_exists_int q
  rw [hk, pyRound1_int_div10]

theorem pyRound1_nonneg {q : ℚ} (h : 0 ≤ q) : 0 ≤ pyRound1 q := by
  have hf : (0 : ℤ) ≤ ⌊q * 10⌋ := Int.le_floor.mpr (by push_cast; nlinarith)
  have hf' : (0 : ℚ) ≤ (⌊q * 10⌋ : ℚ) := by exact_mod_cast hf
  simp only [pyRound1]
  split_ifs <;> apply div_nonneg <;> linarith

theorem pyRound1_le_100 {q : ℚ} (h : q ≤ 100) : pyRound1 q ≤ 100 := by
  have hle : ((⌊q * 10⌋ : ℚ)) ≤ q * 10 := Int.floor_le (q * 10)
  have hf : ((⌊q * 10⌋ : ℚ)) ≤ 1000 := by linarith
  simp only [pyRound1]
  split_ifs with h1 h2 h3
  · rw [div_le_iff₀ (by norm_num : (0:ℚ) < 10)]; linarith
  · have h999 : ((⌊q * 10⌋ : ℚ)) ≤ 999 := by
      have hlt : ((⌊q * 10⌋ : ℚ)) < 1000 := by linarith
      have : ⌊q * 10⌋ < 1000 := by exact_mod_cast hlt
      have : ⌊q * 10⌋ ≤ 999 := by omega
      exact_mod_cast this
    rw [div_le_iff₀ (by norm_num : (0:ℚ) < 10)]; linarith
  · rw [div_le_iff₀ (by norm_num : (0:ℚ) < 10)]; linarith
  · have hhalf : (1:ℚ)/2 ≤ q * 10 - (⌊q * 10⌋ : ℚ) := by linarith
    have h999 : ((⌊q * 10⌋ : ℚ)) ≤ 999 := by
      have hlt : ((⌊q * 10⌋ : ℚ)) < 1000 := by linarith
      have : ⌊q * 10⌋ < 1000 := by exact_mod_cast hlt
      have : ⌊q * 10⌋ ≤ 999 := by omega
      exact_mod_cast this
    rw [div_le_iff₀ (by norm_num : (0:ℚ) < 10)]; linarith

theorem domain_age_score_cases {v : PyVal} {q : ℚ}
    (h : calculate_domain_age_score v = .ok q) :
    q = 20 ∨ q = 50 ∨ q = 70 ∨ q = 100 := by
  unfold calculate_domain_age_score at h
  split at h
  · exact Or.inl (Except.ok.inj h).symm
  · split at h
    · exact absurd h (by simp)
    · split_ifs at h <;>
        simp only [Except.ok.injEq] at h <;> subst h <;> norm_num

theorem ssl_score_cases {d : Option PyDict} {q : ℚ}
    (h : calculate_ssl_score d = .ok q) :
    q = 0 ∨ q = 50 ∨ q = 70 ∨ q = 100 := by
  simp only [calculate_ssl_score] at h
  repeat' split at h
  all_goals try exact (Except.noConfusion h)
  all_goals (simp only [Except.ok.injEq] at h; subst h; norm_num [min_def])

theorem cipher_score_bounds {d : Option PyDict} {q : ℚ}
    (h : calculate_cipher_score d = .ok q) : 0 ≤ q ∧ q ≤ 100 := by
  simp only [calculate_cipher_score] at h
  repeat' split at h
  all_goals try exact (Except.noConfusion h)
  all_goals simp only [Except.ok.injEq] at h
  all_goals subst h
  all_goals constructor
  all_goals norm_num

theorem dns_score_bounds {d : Option PyDict} {q : ℚ}
    (h : calculate_dns_score d = .ok q) : 0 ≤ q ∧ q ≤ 100 := by
  simp only [calculate_dns_score] at h
  repeat' split at h
  all_goals try exact (Except.noConfusion h)
  all_goals simp only [Except.ok.injEq] at h
  all_goals subst h
  all_goals constructor
  all_goals norm_num

theorem cwcs_bounds {ds ss cs dn dw sw cw dnw : ℚ}
    (hds : 0 ≤ ds ∧ ds ≤ 100) (hss : 0 ≤ ss ∧ ss ≤ 100)
    (hcs : 0 ≤ cs ∧ cs ≤ 100) (hdn : 0 ≤ dn ∧ dn ≤ 100)
    (hdw : 0 ≤ dw) (hsw : 0 ≤ sw) (hcw : 0 ≤ cw) (hdnw : 0 ≤ dnw)
    (hsum : dw + sw + cw + dnw ≤ 1) :
    0 ≤ calculate_weighted_composite_score ds ss cs dn dw sw cw dnw ∧
    calculate_weighted_composite_score ds ss cs dn dw sw cw dnw ≤ 100 := by
  unfold calculate_weighted_composite_score
  constructor
  · exact pyRound1_nonneg (by
      have h1 := mul_nonneg hds.1 hdw
      have h2 := mul_nonneg hss.1 hsw
      have h3 := mul_nonneg hcs.1 hcw
      have h4 := mul_nonneg hdn.1 hdnw
      linarith)
  · exact pyRound1_le_100 (by
      have h1 := mul_le_mul_of_nonneg_right hds.2 hdw
      have h2 := mul_le_mul_of_nonneg_right hss.2 hsw
      have h3 := mul_le_mul_of_nonneg_right hcs.2 hcw
      have h4 := mul_le_mul_of_nonneg_right hdn.2 hdnw
      nlinarith)

theorem calculate_score_ok_inv (self : ScoreCalculator)
    (dd sd cd dnd : Option PyDict) (r : CompositeOut)
    (h : self.calculate_score dd sd cd dnd = .ok r) :
    ∃ d ds ss cs dn recs,
      dd = some d ∧
      calculate_domain_age_score (dictGet d "domain_age_years" .vNone) =
        .ok ds ∧
      calculate_ssl_score sd = .ok ss ∧
      (if truthyOpt cd then calculate_cipher_score cd
        else Except.ok 50) = .ok cs ∧
      (if truthyOpt dnd then calculate_dns_score dnd
        else Except.ok 50) = .ok dn ∧
      generate_recommendations
        (calculate_weighted_composite_score ds ss cs dn
          self.domain_weight self.ssl_weight self.cipher_weight
          self.dns_weight)
        (dictGet d "domain_age_years" .vNone) sd cd dnd = .ok recs ∧
      r = { composite_score := pyRound1
              (calculate_weighted_composite_score ds ss cs dn
                self.domain_weight self.ssl_weight self.cipher_weight
                self.dns_weight),
            domain_score := pyRound1 ds,
            ssl_score := pyRound1 ss,
            cipher_score := pyRound1 cs,
            dns_score := pyRound1 dn,
            trust_level := get_trust_level
              (calculate_weighted_composite_score ds ss cs dn
                self.domain_weight self.ssl_weight self.cipher_weight
                self.dns_weight),
            weights := self,
            recommendations := recs } := by
  cases dd with
  | none => exact absurd h (by simp [ScoreCalculator.calculate_score])
  | some d =>
    simp only [ScoreCalculator.calculate_score] at h
    repeat' split at h
    all_goals try exact (Except.noConfusion h)
    exact ⟨d, _, _, _, _, _, rfl, by assumption, by assumption,
      by assumption, by assumption, by assumption, (Except.ok.inj h).symm⟩


/-- Claim C6: calculate_domain_age_score is exactly the step function of
age in years: null or negative age maps to 20, under one year 20, one to
three years 50, three to five years 70, five and above 100; the boundary
values 1, 3, 5 map to 50, 70, 100. -/
theorem c6_domain_age_step_function :
    calculate_domain_age_score PyVal.vNone = .ok (specDomainAgeScore none) ∧
    (∀ a : ℚ, calculate_domain_age_score (PyVal.vNum a) =
      .ok (specDomainAgeScore (some a))) ∧
    calculate_domain_age_score (PyVal.vNum 1) = .ok 50 ∧
    calculate_domain_age_score (PyVal.vNum 3) = .ok 70 ∧
    calculate_domain_age_score (PyVal.vNum 5) = .ok 100 := by
  refine ⟨rfl, ?_, ?_, ?_, ?_⟩
  · intro a
    simp only [calculate_domain_age_score, specDomainAgeScore, pyNum,
      PyVal.isNone]
    split_ifs <;> first | rfl | (exfalso; linarith) | simp_all
  · norm_num [calculate_domain_age_score, pyNum, PyVal.isNone]
  · norm_num [calculate_domain_age_score, pyNum, PyVal.isNone]
  · norm_num [calculate_domain_age_score, pyNum, PyVal.isNone]

/-- Claim C8: for cipher data with normalized cipher_score s and n weak
ciphers found, calculate_cipher_score returns 100 s minus 10 points per
weak cipher capped at 30, clamped to the range 0..100; a missing
cipher_score key defaults to one half. -/
theorem c8_cipher_score_formula (s : ℚ) (n : ℕ) (xs : List String)
    (hlen : xs.length = n) (h0 : 0 ≤ s) (h1 : s ≤ 1) :
    calculate_cipher_score (some [("cipher_score", PyVal.vNum s),
      ("weak_ciphers_found", PyVal.vList xs)]) =
      .ok (specCipherScore s n) ∧
    calculate_cipher_score (some [("weak_ciphers_found", PyVal.vList xs)]) =
      .ok (specCipherScore (1/2) n) := by
  subst hlen
  constructor <;>
  · simp [calculate_cipher_score, truthyOpt, dictGet, pyNum, pyLen,
      specCipherScore]
    rcases Nat.eq_zero_or_pos xs.length with h | h
    · simp [h]; ring_nf
    · simp [h]
      congr 1
      ring_nf

/-- Claim C5: calculate_ssl_score equals the spec-side certificate score
on well-typed certificate data: it is 0 exactly when the certificate is
reported invalid, and a valid certificate scores the min-capped value,
which is at least 50. -/
theorem c5_ssl_score_spec (valid expiring : Bool) (cipher_strength : String)
    (due : Option ℚ) :
    calculate_ssl_score
        (some (mkSSLData valid cipher_strength expiring due)) =
      .ok (specSSLScore valid cipher_strength expiring due) ∧
    (calculate_ssl_score
        (some (mkSSLData valid cipher_strength expiring due)) =
      .ok 0 ↔ valid = false) ∧
    (valid = true →
      50 ≤ specSSLScore valid cipher_strength expiring due) := by
  have hmain : calculate_ssl_score
      (some (mkSSLData valid cipher_strength expiring due)) =
      .ok (specSSLScore valid cipher_strength expiring due) := by
    cases valid <;> cases expiring <;> rcases due with _ | n <;>
      simp [calculate_ssl_score, mkSSLData, specSSLScore, truthyOpt,
        dictGet, pyTruthy, pyLower, pyLt, pyNum, PyVal.isNone] <;>
      split_ifs <;> simp_all [min_def]
  have h50 : valid = true →
      50 ≤ specSSLScore valid cipher_strength expiring due := by
    intro hv
    subst hv
    rcases due with _ | n <;>
      simp [specSSLScore] <;> split_ifs <;> norm_num [min_def]
  refine ⟨hmain, ⟨?_, ?_⟩, h50⟩
  · intro h0
    by_contra hv
    have hv' : valid = true := by
      cases valid
      · exact absurd rfl hv
      · rfl
    rw [hmain] at h0
    have : specSSLScore valid cipher_strength expiring due = 0 :=
      (Except.ok.inj h0)
    have := h50 hv'
    linarith
  · intro hv
    subst hv
    rw [hmain]
    simp [specSSLScore]

/-- Claim C7: entirely absent cipher or DNS data (None or an empty dict)
receives the neutral sub-score 50, both inside
ScoreCalculator.calculate_score and in the standalone score functions. -/
theorem c7_missing_cipher_dns_neutral :
    (∀ (self : ScoreCalculator) (dd sd cd dnd : Option PyDict)
        (r : CompositeOut),
      (cd = none ∨ cd = some ([] : PyDict)) →
      (dnd = none ∨ dnd = some ([] : PyDict)) →
      self.calculate_score dd sd cd dnd = .ok r →
      r.cipher_score = 50 ∧ r.dns_score = 50) ∧
    calculate_cipher_score none = .ok 50 ∧
    calculate_cipher_score (some []) = .ok 50 ∧
    calculate_dns_score none = .ok 50 ∧
    calculate_dns_score (some []) = .ok 50 := by
  have h50 : pyRound1 (50 : ℚ) = 50 := by norm_num [pyRound1]
  refine ⟨?_, rfl, rfl, rfl, rfl⟩
  intro self dd sd cd dnd r hcd hdnd h
  obtain ⟨d, ds, ss, cs, dn, recs, hdd, hds, hss, hcs, hdn, hrecs, hr⟩ :=
    calculate_score_ok_inv self dd sd cd dnd r h
  have hc : cs = 50 := by
    rcases hcd with h1 | h1 <;> subst h1 <;>
      simpa [truthyOpt] using hcs.symm
  have hd : dn = 50 := by
    rcases hdnd with h1 | h1 <;> subst h1 <;>
      simpa [truthyOpt] using hdn.symm
  subst hc hd hr
  exact ⟨h50, h50⟩

/-- Claim C9: the trust level is a pure monotonic function of the final
composite score with thresholds 80 and 60, and both engine entry points
compute the reported trust level from the reported composite score. -/
theorem c9_trust_level_of_composite :
    (∀ s : ℚ, (get_trust_level s = "high" ↔ 80 ≤ s) ∧
      (get_trust_level s = "medium" ↔ 60 ≤ s ∧ s < 80) ∧
      (get_trust_level s = "low" ↔ s < 60)) ∧
    (∀ s t : ℚ, s ≤ t →
      trustRank (get_trust_level s) ≤ trustRank (get_trust_level t)) ∧
    (∀ (self : ScoreCalculator) (dd sd cd dnd : Option PyDict)
        (r : CompositeOut),
      self.calculate_score dd sd cd dnd = .ok r →
      r.trust_level = get_trust_level r.composite_score) ∧
    (∀ (a b c d : PyVal) (e f : ℚ) (o : CCSOut),
      calculate_composite_score a b c d e f = .structured o →
      o.trust_level = get_trust_level o.composite_score) := by
  refine ⟨?_, ?_, ?_, ?_⟩
  · intro s
    unfold get_trust_level
    split_ifs with h1 h2 <;> refine ⟨?_, ?_, ?_⟩ <;> simp <;>
      first | linarith | (constructor <;> linarith) | (intro h; linarith)
  · intro s t hst
    unfold get_trust_level
    split_ifs <;> simp [trustRank] <;> linarith
  · intro self dd sd cd dnd r h
    obtain ⟨d, ds, ss, cs, dn, recs, hdd, hds, hss, hcs, hdn, hrecs, hr⟩ :=
      calculate_score_ok_inv self dd sd cd dnd r h
    subst hr
    have hidem : pyRound1 (calculate_weighted_composite_score ds ss cs dn
        self.domain_weight self.ssl_weight self.cipher_weight
        self.dns_weight) =
        calculate_weighted_composite_score ds ss cs dn
        self.domain_weight self.ssl_weight self.cipher_weight
        self.dns_weight := by
      unfold calculate_weighted_composite_score
      exact pyRound1_idem _
    simp only [hidem]
  · intro a b c d e f o h
    unfold calculate_composite_score at h
    rcases hbody : ccsBody a b c d e f with msg | v
    · rw [hbody] at h
      exact absurd h (by simp)
    · rw [hbody] at h
      cases v with
      | numeric q => exact absurd h (by simp)
      | structured o2 =>
        simp only [CCSResult.structured.injEq] at h
        subst h
        simp only [ccsBody] at hbody
        repeat' split at hbody
        all_goals try exact (Except.noConfusion hbody)
        all_goals have hinj := Except.ok.inj hbody
        all_goals try exact (CCSVal.noConfusion hinj)
        all_goals have h2 := CCSVal.structured.inj hinj
        all_goals subst h2
        all_goals simp_all [get_trust_level]
        all_goals split_ifs <;> first | rfl | (exfalso; linarith)

/-- Claim C10: entirely absent SSL data (None or empty dict) scores 0 in
calculate_ssl_score, the same as an invalid certificate, while absent
cipher or DNS data scores the neutral 50; absent SSL data therefore
lowers the composite relative to a valid certificate. -/
theorem c10_absent_ssl_penalizes :
    calculate_ssl_score none = .ok 0 ∧
    calculate_ssl_score (some []) = .ok 0 ∧
    calculate_cipher_score none = .ok 50 ∧
    calculate_dns_score none = .ok 50 ∧
    compositeOf (ScoreCalculator.calculate_score ⟨7/20, 1/4, 1/5, 1/5⟩
      (some [("domain_age_years", PyVal.vNum 10)]) (some []) none none) <
      compositeOf (ScoreCalculator.calculate_score ⟨7/20, 1/4, 1/5, 1/5⟩
        (some [("domain_age_years", PyVal.vNum 10)])
        (some [("is_valid", PyVal.vBool true)]) none none) := by
  refine ⟨rfl, rfl, rfl, rfl, ?_⟩
  have hd : calculate_domain_age_score (PyVal.vNum 10) = .ok 100 := by
    simp [calculate_domain_age_score, pyNum, PyVal.isNone]; norm_num
  have hsA : calculate_ssl_score (some ([] : PyDict)) = .ok 0 := rfl
  have hsB : calculate_ssl_score (some [("is_valid", PyVal.vBool true)]) =
      .ok 100 := by
    simp [calculate_ssl_score, truthyOpt, dictGet, pyTruthy, pyLower,
      strLower, PyVal.isNone]
  have hwA : calculate_weighted_composite_score 100 0 50 50 (7/20) (1/4)
      (1/5) (1/5) = 55 := by
    norm_num [calculate_weighted_composite_score, pyRound1]
  have hwB : calculate_weighted_composite_score 100 100 50 50 (7/20) (1/4)
      (1/5) (1/5) = 80 := by
    norm_num [calculate_weighted_composite_score, pyRound1]
  have hrA : generate_recommendations 55 (PyVal.vNum 10)
      (some ([] : PyDict)) none none =
      .ok ["Exercise caution when providing sensitive information",
        "SSL certificate is invalid - avoid entering sensitive data"] := by
    simp [generate_recommendations, truthyOpt, dictGet, pyTruthy, pyLt,
      pyNum, PyVal.isNone]
    norm_num
  have hrB : generate_recommendations 80 (PyVal.vNum 10)
      (some [("is_valid", PyVal.vBool true)]) none none =
      .ok ["This appears to be a trustworthy site"] := by
    simp [generate_recommendations, truthyOpt, dictGet, pyTruthy, pyLt,
      pyNum, PyVal.isNone]
  have h55 : pyRound1 (55 : ℚ) = 55 := by norm_num [pyRound1]
  have h80 : pyRound1 (80 : ℚ) = 80 := by norm_num [pyRound1]
  simp only [ScoreCalculator.calculate_score, dictGet, List.find?,
    beq_self_eq_true, hd, hsA, hsB, truthyOpt, Bool.false_eq_true,
    if_false, hwA, hwB, hrA, hrB, h55, h80, get_trust_level, compositeOf]
  norm_num

/-- Claim C2: a call of calculate_composite_score with two numeric
non-boolean leading arguments takes the legacy path and returns the bare
numeric composite domain*w1 + ssl*w2, where w1 defaults to 0.6 and w2 to
0.4 and the third and fourth positional arguments override them exactly
when weightVal accepts them (numeric and in (0,1]); sub-scores (100, 0)
with weights (0.6, 0.4) give exactly 60, with no rounding applied. -/
theorem c2_legacy_numeric_composite (q1 q2 : ℚ) (w3 w4 : PyVal)
    (c d : ℚ) :
    calculate_composite_score (.vNum q1) (.vNum q2) w3 w4 c d =
      .numeric (q1 * ((weightVal w3).getD (3/5)) +
        q2 * ((weightVal w4).getD (2/5))) ∧
    calculate_composite_score (.vNum 100) (.vNum 0) (.vNum (3/5))
      (.vNum (2/5)) (1/2) (1/2) = .numeric 60 := by
  constructor
  · simp [calculate_composite_score, ccsBody, isNumericNonBool, pyNum]
  · simp [calculate_composite_score, ccsBody, isNumericNonBool, pyNum,
      weightVal]
    norm_num

/-- Claim C3 counterexample: ScoreCalculator.calculate_score has no
exception handler, so a non-numeric domain_age_years value propagates a
TypeError to the caller instead of yielding the error result the claim
requires for both entry points. -/
theorem c3_calculate_score_raises_counterexample :
    ScoreCalculator.calculate_score ⟨3/5, 2/5, 0, 0⟩
      (some [("domain_age_years", PyVal.vStr "unknown")])
      (some [("is_valid", PyVal.vBool true)]) none none =
    .error "TypeError: unorderable types in domain age comparison" := by
  simp [ScoreCalculator.calculate_score, calculate_domain_age_score,
    dictGet, pyNum, PyVal.isNone]

/-- Claim C3 amended: calculate_composite_score never propagates an
exception: every call returns a numeric composite, a structured result,
or the error dict with composite_score 0 and trust_level error built by
its handler.  (ScoreCalculator.calculate_score has no such handler.) -/
theorem c3_ccs_never_raises (a b c d : PyVal) (e f : ℚ) :
    (∃ q, calculate_composite_score a b c d e f = .numeric q) ∨
    (∃ o, calculate_composite_score a b c d e f = .structured o) ∨
    (∃ msg, calculate_composite_score a b c d e f =
      .errorDict 0 "error" msg) := by
  unfold calculate_composite_score
  rcases hbody : ccsBody a b c d e f with msg | v
  · exact Or.inr (Or.inr ⟨msg, rfl⟩)
  · cases v with
    | numeric q => exact Or.inl ⟨q, rfl⟩
    | structured o => exact Or.inr (Or.inl ⟨o, rfl⟩)

/-- Claim C1 counterexample: ScoreCalculator construction accepts the
weights (2, 0, 0, 0) with only a warning (weights_warning is true), and
with those weights a probe input yields composite_score 200, outside the
range 0..100 the claim asserts for every accepted weight configuration. -/
theorem c1_composite_range_counterexample :
    weights_warning ⟨2, 0, 0, 0⟩ = true ∧
    compositeOf (ScoreCalculator.calculate_score ⟨2, 0, 0, 0⟩
      (some [("domain_age_years", PyVal.vNum 10)])
      (some [("is_valid", PyVal.vBool true)]) none none) = 200 ∧
    ¬ compositeOf (ScoreCalculator.calculate_score ⟨2, 0, 0, 0⟩
      (some [("domain_age_years", PyVal.vNum 10)])
      (some [("is_valid", PyVal.vBool true)]) none none) ≤ 100 := by
  have hd : calculate_domain_age_score (PyVal.vNum 10) = .ok 100 := by
    simp [calculate_domain_age_score, pyNum, PyVal.isNone]; norm_num
  have hs : calculate_ssl_score (some [("is_valid", PyVal.vBool true)]) =
      .ok 100 := by
    simp [calculate_ssl_score, truthyOpt, dictGet, pyTruthy, pyLower,
      strLower, PyVal.isNone]
  have hw : calculate_weighted_composite_score 100 100 50 50 2 0 0 0 =
      200 := by
    norm_num [calculate_weighted_composite_score, pyRound1]
  have hr : generate_recommendations 200 (PyVal.vNum 10)
      (some [("is_valid", PyVal.vBool true)]) none none =
      .ok ["This appears to be a trustworthy site"] := by
    simp [generate_recommendations, truthyOpt, dictGet, pyTruthy, pyLt,
      pyNum, PyVal.isNone]
    norm_num
  have h200 : pyRound1 (200 : ℚ) = 200 := by norm_num [pyRound1]
  have heval : compositeOf (ScoreCalculator.calculate_score ⟨2, 0, 0, 0⟩
      (some [("domain_age_years", PyVal.vNum 10)])
      (some [("is_valid", PyVal.vBool true)]) none none) = 200 := by
    simp only [ScoreCalculator.calculate_score, dictGet, List.find?,
      beq_self_eq_true, hd, hs, truthyOpt, Bool.false_eq_true, if_false,
      hw, hr, h200, get_trust_level, compositeOf]
  refine ⟨by norm_num [weights_warning], heval, by rw [heval]; norm_num⟩

/-- Claim C1 amended: for nonnegative weights that sum to at most 1 (in
particular all default configurations), every successful calculate_score
call returns a composite_score in the range 0..100. -/
theorem c1_composite_bounded (self : ScoreCalculator)
    (h0 : 0 ≤ self.domain_weight) (h1 : 0 ≤ self.ssl_weight)
    (h2 : 0 ≤ self.cipher_weight) (h3 : 0 ≤ self.dns_weight)
    (hsum : self.domain_weight + self.ssl_weight + self.cipher_weight +
      self.dns_weight ≤ 1)
    (dd sd cd dnd : Option PyDict) (r : CompositeOut)
    (h : self.calculate_score dd sd cd dnd = .ok r) :
    0 ≤ r.composite_score ∧ r.composite_score ≤ 100 := by
  obtain ⟨d, ds, ss, cs, dn, recs, hdd, hds, hss, hcs, hdn, hrecs, hr⟩ :=
    calculate_score_ok_inv self dd sd cd dnd r h
  have hdsb : 0 ≤ ds ∧ ds ≤ 100 := by
    rcases domain_age_score_cases hds with h9 | h9 | h9 | h9 <;>
      subst h9 <;> norm_num
  have hssb : 0 ≤ ss ∧ ss ≤ 100 := by
    rcases ssl_score_cases hss with h9 | h9 | h9 | h9 <;>
      subst h9 <;> norm_num
  have hcsb : 0 ≤ cs ∧ cs ≤ 100 := by
    by_cases htc : truthyOpt cd = true
    · rw [if_pos htc] at hcs
      exact cipher_score_bounds hcs
    · rw [if_neg htc] at hcs
      have h9 := (Except.ok.inj hcs).symm
      subst h9
      norm_num
  have hdnb : 0 ≤ dn ∧ dn ≤ 100 := by
    by_cases htd : truthyOpt dnd = true
    · rw [if_pos htd] at hdn
      exact dns_score_bounds hdn
    · rw [if_neg htd] at hdn
      have h9 := (Except.ok.inj hdn).symm
      subst h9
      norm_num
  have hcb := cwcs_bounds hdsb hssb hcsb hdnb h0 h1 h2 h3 hsum
  subst hr
  exact ⟨pyRound1_nonneg hcb.1, pyRound1_le_100 hcb.2⟩

/-- Claim C4: the URL safety gate rejects any URL whose scheme is outside
http and https with reason bad_scheme:scheme, independently of the DNS
resolver (so before any resolution), and with the empty allowlist rejects
any URL whose hostname resolves to at least one address classified
private, with reason resolved_to_private_ip carrying that address. -/
theorem c4_url_gate_rejections :
    (∀ (classify : String → Option IPFlags)
        (resolve resolve2 : String → List String)
        (allowlist : List String) (p : ParsedUrl),
      p.scheme ∉ ["http", "https"] →
      is_url_allowed classify resolve allowlist (some p) =
        (false, "bad_scheme:" ++ p.scheme) ∧
      is_url_allowed classify resolve allowlist (some p) =
        is_url_allowed classify resolve2 allowlist (some p)) ∧
    (∀ (classify : String → Option IPFlags)
        (resolve : String → List String) (p : ParsedUrl) (host : String),
      p.scheme ∈ ["http", "https"] → p.hostname = some host →
      host ≠ "" → resolve host ≠ [] →
      (∃ a ∈ resolve host, is_ip_private classify a = true) →
      ∃ a ∈ resolve host, is_ip_private classify a = true ∧
        is_url_allowed classify resolve [] (some p) =
          (false, "resolved_to_private_ip:" ++ a)) := by
  constructor
  · intro classify resolve resolve2 allowlist p hscheme
    simp only [List.mem_cons, List.mem_singleton, not_or] at hscheme
    obtain ⟨hn1, hn2⟩ := hscheme
    have hcond : (p.scheme == "http" || p.scheme == "https") = false := by
      simp [hn1, hn2]
    constructor <;> simp [is_url_allowed, hcond]
  · intro classify resolve p host hscheme hhost hne hres hpriv
    have hsf : ((resolve host).find?
        (fun a => is_ip_private classify a)).isSome = true := by
      rw [List.find?_isSome]
      exact hpriv
    obtain ⟨a, hfa⟩ := Option.isSome_iff_exists.mp hsf
    refine ⟨a, List.mem_of_find?_eq_some hfa, List.find?_some hfa, ?_⟩
    have hcond : (p.scheme == "http" || p.scheme == "https") = true := by
      simp only [List.mem_cons, List.not_mem_nil, or_false] at hscheme
      rcases hscheme with h9 | h9 <;> simp [h9]
    have hemp : (resolve host).isEmpty = false := by
      simpa [List.isEmpty_iff] using hres
    simp [is_url_allowed, hcond, hhost, hne, hemp, hfa]

/-- Witness for the amended claim C1: the default two-factor weights
(0.6, 0.4, 0, 0) are nonnegative and sum to 1, and on a concrete probe
input the bound holds with composite_score 100. -/
theorem c1_composite_bounded_witness : (0 : ℚ) ≤ 100 ∧ (100 : ℚ) ≤ 100 := by
  have hd : calculate_domain_age_score (PyVal.vNum 10) = .ok 100 := by
    simp [calculate_domain_age_score, pyNum, PyVal.isNone]; norm_num
  have hs : calculate_ssl_score (some [("is_valid", PyVal.vBool true)]) =
      .ok 100 := by
    simp [calculate_ssl_score, truthyOpt, dictGet, pyTruthy, pyLower,
      strLower, PyVal.isNone]
  have hw : calculate_weighted_composite_score 100 100 50 50 (3/5) (2/5)
      0 0 = 100 := by
    norm_num [calculate_weighted_composite_score, pyRound1]
  have hr : generate_recommendations 100 (PyVal.vNum 10)
      (some [("is_valid", PyVal.vBool true)]) none none =
      .ok ["This appears to be a trustworthy site"] := by
    simp [generate_recommendations, truthyOpt, dictGet, pyTruthy, pyLt,
      pyNum, PyVal.isNone]
    norm_num
  have h100 : pyRound1 (100 : ℚ) = 100 := by norm_num [pyRound1]
  have h50 : pyRound1 (50 : ℚ) = 50 := by norm_num [pyRound1]
  have heval : ScoreCalculator.calculate_score ⟨3/5, 2/5, 0, 0⟩
      (some [("domain_age_years", PyVal.vNum 10)])
      (some [("is_valid", PyVal.vBool true)]) none none =
      .ok { composite_score := 100, domain_score := 100, ssl_score := 100,
            cipher_score := 50, dns_score := 50, trust_level := "high",
            weights := ⟨3/5, 2/5, 0, 0⟩,
            recommendations :=
              ["This appears to be a trustworthy site"] } := by
    simp only [ScoreCalculator.calculate_score, dictGet, List.find?,
      beq_self_eq_true, hd, hs, truthyOpt, Bool.false_eq_true, if_false,
      hw, hr, h100, h50, get_trust_level]
    norm_num
  have h := c1_composite_bounded ⟨3/5, 2/5, 0, 0⟩ (by norm_num)
    (by norm_num) (by norm_num) (by norm_num) (by norm_num)
    (some [("domain_age_years", PyVal.vNum 10)])
    (some [("is_valid", PyVal.vBool true)]) none none
    { composite_score := 100, domain_score := 100, ssl_score := 100,
      cipher_score := 50, dns_score := 50, trust_level := "high",
      weights := ⟨3/5, 2/5, 0, 0⟩,
      recommendations := ["This appears to be a trustworthy site"] } heval
  simpa using h

/-- Witness for claim C4: ftp://example.com is rejected with
bad_scheme:ftp, and a URL whose host resolves to the loopback address
127.0.0.1 is rejected with resolved_to_private_ip:127.0.0.1. -/
theorem c4_url_gate_rejections_witness :
    is_url_allowed (fun _ => some ⟨false, false, false, false, false,
      false⟩) (fun _ => ["203.0.113.7"]) []
      (some ⟨"ftp", some "example.com"⟩) = (false, "bad_scheme:ftp") ∧
    is_url_allowed (fun _ => some ⟨false, true, false, false, false,
      false⟩) (fun _ => ["127.0.0.1"]) []
      (some ⟨"http", some "127.0.0.1"⟩) =
      (false, "resolved_to_private_ip:127.0.0.1") := by
  constructor
  · have h := (c4_url_gate_rejections.1
      (fun _ => some ⟨false, false, false, false, false, false⟩)
      (fun _ => ["203.0.113.7"]) (fun _ => ["203.0.113.7"]) []
      ⟨"ftp", some "example.com"⟩ (by simp)).1
    exact h
  · obtain ⟨a, ha, hp, he⟩ := c4_url_gate_rejections.2
      (fun _ => some ⟨false, true, false, false, false, false⟩)
      (fun _ => ["127.0.0.1"]) ⟨"http", some "127.0.0.1"⟩ "127.0.0.1"
      (by simp) rfl (by simp) (by simp)
      ⟨"127.0.0.1", by simp, by simp [is_ip_private]⟩
    simp only [List.mem_cons, List.not_mem_nil, or_false] at ha
    subst ha
    exact he

/-- Witness for claim C5: a valid certificate with a strong cipher and
100 days to expiry scores the spec value, which is at least 50. -/
theorem c5_ssl_score_spec_witness :
    calculate_ssl_score (some (mkSSLData true "strong" false
      (some 100))) = .ok (specSSLScore true "strong" false (some 100)) ∧
    (50 : ℚ) ≤ specSSLScore true "strong" false (some 100) :=
  ⟨(c5_ssl_score_spec true false "strong" (some 100)).1,
    (c5_ssl_score_spec true false "strong" (some 100)).2.2 rfl⟩

/-- Witness for claim C7: a concrete calculate_score call with absent
cipher data (None) and empty DNS data reports both sub-scores as 50. -/
theorem c7_missing_cipher_dns_neutral_witness :
    (50 : ℚ) = 50 ∧ (50 : ℚ) = 50 := by
  have hd : calculate_domain_age_score (PyVal.vNum 2) = .ok 50 := by
    simp [calculate_domain_age_score, pyNum, PyVal.isNone]; norm_num
  have hs : calculate_ssl_score (some [("is_valid", PyVal.vBool true)]) =
      .ok 100 := by
    simp [calculate_ssl_score, truthyOpt, dictGet, pyTruthy, pyLower,
      strLower, PyVal.isNone]
  have hw : calculate_weighted_composite_score 50 100 50 50 (7/20) (1/4)
      (1/5) (1/5) = 125/2 := by
    norm_num [calculate_weighted_composite_score, pyRound1]
  have hr : generate_recommendations (125/2) (PyVal.vNum 2)
      (some [("is_valid", PyVal.vBool true)]) none (some []) =
      .ok ["Exercise normal caution when interacting"] := by
    simp [generate_recommendations, truthyOpt, dictGet, pyTruthy, pyLt,
      pyNum, PyVal.isNone]
    norm_num
  have h100 : pyRound1 (100 : ℚ) = 100 := by norm_num [pyRound1]
  have h50 : pyRound1 (50 : ℚ) = 50 := by norm_num [pyRound1]
  have h62 : pyRound1 ((125 : ℚ)/2) = 125/2 := by norm_num [pyRound1]
  have heval : ScoreCalculator.calculate_score ⟨7/20, 1/4, 1/5, 1/5⟩
      (some [("domain_age_years", PyVal.vNum 2)])
      (some [("is_valid", PyVal.vBool true)]) none (some []) =
      .ok { composite_score := 125/2, domain_score := 50,
            ssl_score := 100, cipher_score := 50, dns_score := 50,
            trust_level := "medium", weights := ⟨7/20, 1/4, 1/5, 1/5⟩,
            recommendations :=
              ["Exercise normal caution when interacting"] } := by
    simp only [ScoreCalculator.calculate_score, dictGet, List.find?,
      beq_self_eq_true, hd, hs, truthyOpt, List.isEmpty_nil,
      Bool.not_true, Bool.false_eq_true, if_false, hw, hr, h100, h50,
      h62, get_trust_level]
    norm_num
  have h := c7_missing_cipher_dns_neutral.1 ⟨7/20, 1/4, 1/5, 1/5⟩
    (some [("domain_age_years", PyVal.vNum 2)])
    (some [("is_valid", PyVal.vBool true)]) none (some [])
    { composite_score := 125/2, domain_score := 50, ssl_score := 100,
      cipher_score := 50, dns_score := 50, trust_level := "medium",
      weights := ⟨7/20, 1/4, 1/5, 1/5⟩,
      recommendations := ["Exercise normal caution when interacting"] }
    (Or.inl rfl) (Or.inr rfl) heval
  simpa using h

/-- Witness for claim C8: cipher data with normalized score 0.7 and one
weak cipher scores the spec value 60. -/
theorem c8_cipher_score_formula_witness :
    calculate_cipher_score (some [("cipher_score", PyVal.vNum (7/10)),
      ("weak_ciphers_found", PyVal.vList ["TLS_RSA_WITH_RC4_128_SHA"])]) =
      .ok (specCipherScore (7/10) 1) ∧
    specCipherScore (7/10) 1 = 60 := by
  constructor
  · exact (c8_cipher_score_formula (7/10) 1 ["TLS_RSA_WITH_RC4_128_SHA"]
      rfl (by norm_num) (by norm_num)).1
  · norm_num [specCipherScore]

/-- Witness for claim C9: composite 80 maps to high, and the rank of the
trust level at 59.9 is at most the rank at 80. -/
theorem c9_trust_level_of_composite_witness :
    get_trust_level 80 = "high" ∧
    trustRank (get_trust_level (599/10)) ≤ trustRank (get_trust_level 80)
    := by
  constructor
  · exact ((c9_trust_level_of_composite.1 80).1).mpr (by norm_num)
  · exact c9_trust_level_of_composite.2.1 (599/10) 80 (by norm_num)

end SiteOrigin
